import Mathlib

/-!
# Verification of the blog-writing agents repository

Shallow embedding of the repository's Python sources:

* `src/mcp/search_mcp/1/model.py` — the remote tool server: three tool
  functions (`multi_engine_search`, `extract_web_content_from_links`,
  `keyword_research`) registered on a `FastMCP` server.
* `src/app.py` — the direct variant: two agents, two tasks, a sequential
  crew, and a Streamlit UI shell.
* `src/mcp/app.py` — the MCP variant: three agents, three tasks, a
  sequential crew, and a Streamlit UI shell.

External services (the search API, the HTML-extraction library, the LLM
endpoint, the orchestration runtime's kickoff) are modelled as explicit
inputs: each embedded function receives the service response it would have
obtained, and fallible Python code is embedded with `Except String`
(the error string standing for the exception's message).
-/

/-! ## Tool server: `src/mcp/search_mcp/1/model.py` -/

/-- One entry of a search response's `organic_results` array.
`link` is `none` when the `"link"` key is absent (Python `result.get("link")`
returns `None`). -/
structure OrganicResult where
  link : Option String
deriving DecidableEq, Repr

/-- A response dict from the search API as consumed by `multi_engine_search`.
`organic_results = none` models a response without an `"organic_results"`
key (Python `results.get("organic_results", [])` then yields `[]`). -/
structure SearchResponse where
  organic_results : Option (List OrganicResult)
deriving DecidableEq, Repr

/-- Embedding of `multi_engine_search` (model.py lines 22–41), with the
search API's response passed explicitly.  Mirrors the loop

```
links = []
for result in results.get("organic_results", [])[:5]:
    link = result.get("link")
    if link:
        links.append(link)
return links
```

Python truthiness of `link`: `None` and `""` are falsy, so an entry is
skipped when its `link` is missing or empty. -/
def multi_engine_search (results : SearchResponse) : List String :=
  ((results.organic_results.getD []).take 5).foldl
    (fun links result =>
      match result.link with
      | some link => if link = "" then links else links ++ [link]
      | none => links)
    []

/-- The per-entry link selector corresponding to the loop body of
`multi_engine_search`: the kept link of an entry, or `none` when the entry
is skipped. -/
def keptLink (result : OrganicResult) : Option String :=
  match result.link with
  | some link => if link = "" then none else some link
  | none => none

/-! ### Python dict as an insertion-ordered association list -/

/-- `dictInsert d k v` models the Python dict assignment `d[k] = v`:
if `k` is already a key its value is replaced in place, otherwise the pair
is appended. -/
def dictInsert : List (String × String) → String → String → List (String × String)
  | [], k, v => [(k, v)]
  | (k', v') :: rest, k, v =>
    if k' = k then (k', v) :: rest else (k', v') :: dictInsert rest k v

/-- `dictLookup d k` models the Python dict read `d[k]` (as an `Option`). -/
def dictLookup : List (String × String) → String → Option String
  | [], _ => none
  | (k', v') :: rest, k => if k' = k then some v' else dictLookup rest k

/-- Embedding of `extract_web_content_from_links` (model.py lines 44–61).
`fetchParse url` stands for the effect of
`article = Article(url); article.download(); article.parse()` followed by
reading `article.text`: `Except.ok text` when it succeeds, and
`Except.error msg` when any of those raises an exception with message
`msg` (`str(e)`).  Mirrors

```
extracted = {}
for url in urls:
    try:
        ...
        extracted[url] = article.text[:1000]
    except Exception as e:
        extracted[url] = f"Error extracting content: {str(e)}"
return extracted
```

`extractStep` is one iteration of the loop body (the whole try/except);
`extract_web_content_from_links` is the loop over the url list starting
from the empty dict. -/
def extractStep (fetchParse : String → Except String String)
    (extracted : List (String × String)) (url : String) : List (String × String) :=
  match fetchParse url with
  | Except.ok text => dictInsert extracted url (text.take 1000)
  | Except.error e => dictInsert extracted url ("Error extracting content: " ++ e)

/-- Embedding of `extract_web_content_from_links` (model.py lines 44–61):
the extraction loop over the url list, starting from the empty dict. -/
def extract_web_content_from_links (fetchParse : String → Except String String)
    (urls : List String) : List (String × String) :=
  urls.foldl (extractStep fetchParse) []

/-- The value `extract_web_content_from_links` stores for a given url:
the first 1000 characters of the article text on success, an error string
on failure. -/
def extractValue (fetchParse : String → Except String String) (url : String) : String :=
  match fetchParse url with
  | Except.ok text => text.take 1000
  | Except.error e => "Error extracting content: " ++ e

/-! ### `keyword_research` -/

/-- One entry of the autocomplete response's `suggestions` array.
`value = none` models an item without a `"value"` key; the comprehension
`[item['value'] for item in ...]` raises a `KeyError` on such an item. -/
structure SuggestionItem where
  value : Option String
deriving DecidableEq, Repr

/-- The autocomplete-engine response as consumed by `keyword_research`. -/
structure AutocompleteResponse where
  suggestions : Option (List SuggestionItem)
deriving DecidableEq, Repr

/-- One item of a timeline entry's `values` array; `.get('value')` is a
safe access, hence an `Option` field. -/
structure ValueItem where
  value : Option String
deriving DecidableEq, Repr

/-- One entry of `interest_over_time.timeline_data`; the code accesses
`entry['values']` directly, so a missing key raises. -/
structure TimelineEntry where
  values : Option (List ValueItem)
deriving DecidableEq, Repr

/-- The `interest_over_time` object of a trends response. -/
structure InterestOverTime where
  timeline_data : Option (List TimelineEntry)
deriving DecidableEq, Repr

/-- The trends-engine response as consumed by `keyword_research`;
`interest_over_time = none` models the key being absent. -/
structure TrendsResponse where
  interest_over_time : Option InterestOverTime
deriving DecidableEq, Repr

/-- The `relative_popularity_score` stored by `keyword_research`: the
literal string `"N/A"` when there is no timeline data (or no
`interest_over_time`), or the result of
`timeline_data[-1]['values'][i].get('value')`. -/
inductive PopValue where
  | na
  | fetched (v : Option String)
deriving DecidableEq, Repr

/-- One element of the list returned by `keyword_research`: either the
single `{"error": ...}` dict, or a `{"keyword": ..., "relative_popularity_score": ...}`
dict. -/
inductive KRes where
  | error (msg : String)
  | keyword (kw : String) (score : PopValue)
deriving DecidableEq, Repr

/-- Embedding of the comprehension
`[item['value'] for item in autocomplete_results.get('suggestions', [])[:5]]`:
evaluates left to right and raises `KeyError` at the first item without a
`"value"` key. -/
def getValues : List SuggestionItem → Except String (List String)
  | [] => Except.ok []
  | item :: rest =>
    match item.value with
    | some v =>
      match getValues rest with
      | Except.ok vs => Except.ok (v :: vs)
      | Except.error e => Except.error e
    | none => Except.error "KeyError: value"

/-- Embedding of one iteration of the `for i, keyword in enumerate(suggestions)`
loop body of `keyword_research`:
`last_value = timeline_data[-1]['values'][i].get('value') if timeline_data else "N/A"`.
`timeline_data.getLast?` is `none` exactly when the Python truthiness test
`if timeline_data` fails; `['values']` may raise `KeyError` and `[i]` may
raise `IndexError`. -/
def buildRow (timeline_data : List TimelineEntry) (i : Nat) (kw : String) :
    Except String KRes :=
  match timeline_data.getLast? with
  | none => Except.ok (KRes.keyword kw PopValue.na)
  | some last =>
    match last.values with
    | none => Except.error "KeyError: values"
    | some vs =>
      match vs[i]? with
      | some item => Except.ok (KRes.keyword kw (PopValue.fetched item.value))
      | none => Except.error "IndexError: list index out of range"

/-- The `keyword_data` accumulation loop of `keyword_research`, raising at
the first failing iteration (Python raises out of the loop). -/
def buildRows (timeline_data : List TimelineEntry) :
    Nat → List String → Except String (List KRes)
  | _, [] => Except.ok []
  | i, kw :: rest =>
    match buildRow timeline_data i kw with
    | Except.error e => Except.error e
    | Except.ok r =>
      match buildRows timeline_data (i + 1) rest with
      | Except.ok rs => Except.ok (r :: rs)
      | Except.error e => Except.error e

/-- Embedding of `keyword_research` (model.py lines 68–103), with the two
service responses passed explicitly.  `Except.error` models an uncaught
Python exception (there is no try/except in this function). -/
def keyword_research (auto : AutocompleteResponse) (trends : TrendsResponse) :
    Except String (List KRes) :=
  match getValues ((auto.suggestions.getD []).take 5) with
  | Except.error e => Except.error e
  | Except.ok suggestions =>
    if suggestions.isEmpty then
      Except.ok [KRes.error "Could not fetch keyword suggestions."]
    else
      match trends.interest_over_time with
      | some iot => buildRows (iot.timeline_data.getD []) 0 suggestions
      | none =>
        Except.ok (suggestions.map fun kw => KRes.keyword kw PopValue.na)

/-! ### Server registration and state -/

/-- The module-level state of `model.py`: the only module globals the tool
functions can see are the `FastMCP` server object and the API key read
when the module loads.  None of the three tool bodies assigns to a
global. -/
structure ServerState where
  serpapi_api_key : Option String
deriving DecidableEq, Repr

/-- `multi_engine_search` as a state-passing call: the body only reads the
module state (the API key goes into the outgoing request's params) and
returns it unchanged; the returned value is computed from the
service response alone. -/
def multi_engine_search_call (st : ServerState)
    (_query _engine _location _device : String) (resp : SearchResponse) :
    ServerState × List String :=
  (st, multi_engine_search resp)

/-- `extract_web_content_from_links` as a state-passing call. -/
def extract_call (st : ServerState) (fetchParse : String → Except String String)
    (urls : List String) : ServerState × List (String × String) :=
  (st, extract_web_content_from_links fetchParse urls)

/-- `keyword_research` as a state-passing call. -/
def keyword_research_call (st : ServerState) (_topic : String)
    (auto : AutocompleteResponse) (trends : TrendsResponse) :
    ServerState × Except String (List KRes) :=
  (st, keyword_research auto trends)

/-- What a tool body invokes: the search API client (`GoogleSearch`), the
HTML-extraction library (`Article`), or another registered tool. -/
inductive Callee where
  | googleSearch
  | articleLib
  | tool (name : String)
deriving DecidableEq, Repr

/-- `true` iff the callee is another registered tool. -/
def Callee.isTool : Callee → Bool
  | Callee.tool _ => true
  | _ => false

/-- The calls each tool body makes, read off `model.py`:
`multi_engine_search` constructs one `GoogleSearch`; the extraction tool
uses `Article` (per url); `keyword_research` constructs two
`GoogleSearch` clients (autocomplete, then trends).  No body references
another tool function. -/
def tool_callees : String → List Callee
  | "multi_engine_search" => [Callee.googleSearch]
  | "extract_web_content_from_links" => [Callee.articleLib]
  | "keyword_research" => [Callee.googleSearch, Callee.googleSearch]
  | _ => []

/-- The `FastMCP` server object: its name and the tools registered on it
by the three `@server.tool(...)` decorators, in source order. -/
structure FastMCPServer where
  name : String
  tools : List String
deriving DecidableEq, Repr

/-- `server = FastMCP("blog_writing_search_mcp")` with the three decorated
tools (model.py lines 18, 22, 44, 64). -/
def server : FastMCPServer :=
  { name := "blog_writing_search_mcp"
    tools := ["multi_engine_search", "extract_web_content_from_links",
              "keyword_research"] }

/-- `MyModelClass.get_server` (model.py lines 106–108) returns the module's
`server` object. -/
def MyModelClass_get_server : FastMCPServer := server

/-! ## Crew configuration model (shared by `src/app.py` and `src/mcp/app.py`) -/

/-- A `crewai.LLM` configuration object. -/
structure LLM where
  model : String
  api_key : Option String
  base_url : String
deriving DecidableEq, Repr

/-- A `crewai.Agent` configuration object: the keyword arguments the two
apps pass.  `tools` holds tool names; agents constructed without a `tools`
argument get the default `[]`. -/
structure Agent where
  role : String
  goal : String
  backstory : String
  tools : List String
  verbose : Bool
  allow_delegation : Bool
  llm : LLM
deriving DecidableEq, Repr

/-- A `crewai.Task` configuration object; `context` holds the tasks whose
output is passed as context.  A task constructed without a `context`
argument gets `[]`. -/
inductive CrewTask where
  | mk (description : String) (expected_output : String) (agent : Agent)
       (context : List CrewTask)

/-- The `description` keyword argument of a task. -/
def CrewTask.description : CrewTask → String
  | CrewTask.mk d _ _ _ => d

/-- The `expected_output` keyword argument of a task. -/
def CrewTask.expected_output : CrewTask → String
  | CrewTask.mk _ e _ _ => e

/-- The `agent` keyword argument of a task. -/
def CrewTask.agent : CrewTask → Agent
  | CrewTask.mk _ _ a _ => a

/-- The `context` keyword argument of a task. -/
def CrewTask.context : CrewTask → List CrewTask
  | CrewTask.mk _ _ _ c => c

/-- `crewai.Process` values used by the apps. -/
inductive Process where
  | sequential
  | hierarchical
deriving DecidableEq, Repr

/-- A `crewai.Crew` configuration object. -/
structure Crew where
  agents : List Agent
  tasks : List CrewTask
  process : Process
  verbose : Bool

/-- Python `str.strip()` (no argument): remove leading and trailing
whitespace characters. -/
def pyStrip (s : String) : String :=
  String.mk (((s.data.dropWhile Char.isWhitespace).reverse.dropWhile
    Char.isWhitespace).reverse)

/-- Python `str.replace(a, b)` for single-character arguments: replace
every occurrence of `a` by `b`. -/
def pyReplace (s : String) (a b : Char) : String :=
  String.mk (s.data.map fun c => if c = a then b else c)

/-- Python `str.lower()`. -/
def pyLower (s : String) : String :=
  String.mk (s.data.map Char.toLower)

/-- The outcome the Streamlit generate-button branch displays: either an
`st.error` message, or the success path rendering `rendered` via
`st.markdown` and offering `st.download_button` with payload
`downloadData`, file name `fileName` and MIME type `mime`. -/
inductive UIOutcome where
  | errorMsg (msg : String)
  | success (rendered : String) (downloadData : String) (fileName : String)
            (mime : String)
deriving DecidableEq, Repr

/-! ## Direct variant: `src/app.py`

Module-level constants depend on the environment read `CLARIFAI_API`,
threaded here as parameter `capi`.  Long multi-line Python strings are
reproduced with their line structure; the source indentation inside
triple-quoted strings is normalized. -/

namespace App

/-- `clarifai_llm` (app.py lines 12–16). -/
def clarifai_llm (capi : Option String) : LLM :=
  { model := "openai/gcp/generate/models/gemini-2_5-pro"
    api_key := capi
    base_url := "https://api.clarifai.com/v2/ext/openai/v1" }

/-- `search_tool = SerperDevTool()` (app.py line 18), identified by name. -/
def search_tool : String := "SerperDevTool"

/-- The `researcher` agent (app.py lines 22–42). -/
def researcher (capi : Option String) : Agent :=
  { role := "Senior Research Analyst"
    goal := "Systematically identify, validate, and synthesize the most recent, high-impact findings and developments on a given technical topic, and produce a clear, well-structured briefing with source attributions."
    backstory := "You are a Senior Research Analyst at a leading technology think tank, renowned for your rigorous\nmethodology and attention to detail. You excel at:\n\n• Scoping the project: defining subtopics, keywords, and questions that uncover hidden insights.\n• Source vetting: prioritizing peer-reviewed papers, reputable industry reports, and authoritative blogs.\n• Synthesis: distilling complex material into concise bullet points, annotated with citations and confidence levels.\n• Collaboration: asking clarifying questions when the research scope is ambiguous or too broad."
    tools := [search_tool]
    verbose := true
    allow_delegation := false
    llm := clarifai_llm capi }

/-- The `writer` agent (app.py lines 44–62); no `tools` argument. -/
def writer (capi : Option String) : Agent :=
  { role := "Tech Content Strategist & Copywriter"
    goal := "Transform research insights into an engaging, SEO-optimized blog post that communicates complex concepts to a tech-savvy audience, with a clear narrative flow."
    backstory := "You are a seasoned Tech Content Strategist and Copywriter, published across top industry outlets.\nYour strengths include:\n\n• Audience profiling: adapting tone, terminology, and depth for developers, researchers, or decision-makers.\n• Storytelling: crafting a compelling introduction, logical progression of ideas, and memorable takeaways.\n• SEO best practices: integrating keywords naturally, writing persuasive headings, and optimizing for readability.\n• Revision: incorporating feedback, refining clarity, and ensuring factual accuracy via collaboration with the researcher."
    tools := []
    verbose := true
    allow_delegation := true
    llm := clarifai_llm capi }

/-- `create_tasks(topic)` (app.py lines 64–99): builds `research_task` and
`writing_task`; `writing_task` is constructed with `context=[research_task]`,
`research_task` with no `context` argument. -/
def create_tasks (capi : Option String) (topic : String) : CrewTask × CrewTask :=
  let research_task := CrewTask.mk
    ("Conduct a structured, in-depth exploration of “" ++ topic ++ "”:\n1. Define key subtopics and research questions.\n2. Source and vet high-quality materials (peer-reviewed papers, industry reports, authoritative blogs).\n3. Synthesize findings into concise bullet points with source citations and confidence annotations.\n4. Highlight emerging trends, breakthrough technologies, leading experts, and potential industry impacts.")
    "A comprehensive research briefing: a bullet-point summary with clear source attributions and confidence ratings."
    (researcher capi)
    []
  let writing_task := CrewTask.mk
    ("Using the research briefing on “" ++ topic ++ "”, craft an engaging, SEO-optimized blog post:\n1. Create a compelling title (use `#`).\n2. Organize content with section headers (use `##`) for Introduction, Body, and Conclusion.\n3. Maintain a logical narrative flow and approachable, human tone.\n4. Explain any technical terms and avoid unexplained jargon.\n5. Use bullet points to clarify lists.\n6. Emphasize key insights with **bold** text.\n7. Output strictly as Markdown (no code blocks or triple backticks).")
    "A well-crafted Markdown blog post (4–6 paragraphs) with title, headings, bullet points, and emphasis."
    (writer capi)
    [research_task]
  (research_task, writing_task)

/-- The `Crew` built by `run_blog_generation` (app.py lines 101–109). -/
def run_blog_generation_crew (capi : Option String) (topic : String) : Crew :=
  let ts := create_tasks capi topic
  { agents := [researcher capi, writer capi]
    tasks := [ts.1, ts.2]
    process := Process.sequential
    verbose := true }

/-- The generate-button branch of `main` (app.py lines 145–165).
`run topic` stands for `run_blog_generation(topic=topic)` : `Except.ok r`
when it returns result `r`, `Except.error e` when it raises an exception
with message `e` (`str(e)`); the `except` clause renders it via
`st.error(f"And error occurred: {str(e)}")` (the "And" typo is in the
source). -/
def handle (topic : String) (run : String → Except String String) : UIOutcome :=
  if pyStrip topic = "" then
    UIOutcome.errorMsg "Please enter a topic for the blog post."
  else
    match run topic with
    | Except.ok result =>
      UIOutcome.success result result
        (pyReplace topic ' ' '_' ++ "_blog_post.md") "text/markdown"
    | Except.error e => UIOutcome.errorMsg ("And error occurred: " ++ e)

end App

/-! ## MCP variant: `src/mcp/app.py`

Everything below the `generate_button` check happens inside `main`; the
agents and tasks are built per run, from the environment read
`CLARIFAI_PAT` (parameter `pat`), the MCP adapter's tool list (parameter
`mcp_tools`) and the topic.  Source indentation inside triple-quoted
strings is normalized. -/

namespace Mcp

/-- `clarifai_llm` (mcp/app.py lines 23–27). -/
def clarifai_llm (pat : Option String) : LLM :=
  { model := "openai/openai/chat-completion/models/gpt-4o"
    api_key := pat
    base_url := "https://api.clarifai.com/v2/ext/openai/v1" }

/-- The `planner` agent (mcp/app.py lines 71–79); its `tools` are the
adapter's tools. -/
def planner (pat : Option String) (mcp_tools : List String) : Agent :=
  { role := "SEO Researcher and Content Planner"
    goal := "Extract key insights, find SEO keywords, and outline the blog."
    backstory := "You research top articles and produce outlines optimized for engagement and SEO."
    tools := mcp_tools
    verbose := true
    allow_delegation := false
    llm := clarifai_llm pat }

/-- The `writer` agent (mcp/app.py lines 81–88); no `tools` argument. -/
def writer (pat : Option String) : Agent :=
  { role := "Blog Post Writer"
    goal := "Create a detailed, high-quality blog post using the research and outline."
    backstory := "You are a writer who specializes in transforming outlines into compelling blog posts."
    tools := []
    verbose := true
    allow_delegation := false
    llm := clarifai_llm pat }

/-- The `editor` agent (mcp/app.py lines 90–97); no `tools` argument. -/
def editor (pat : Option String) : Agent :=
  { role := "Blog Editor and Formatter"
    goal := "Edit the blog post, correct grammar, and format it in markdown."
    backstory := "You ensure every blog is well-written, polished, and correctly formatted for publishing."
    tools := []
    verbose := true
    allow_delegation := false
    llm := clarifai_llm pat }

/-- The three tasks built inside `main` (mcp/app.py lines 100–153):
`plan_task` with no `context` argument, `write_task` with
`context=[plan_task]`, `edit_task` with `context=[write_task]`. -/
def make_tasks (pat : Option String) (mcp_tools : List String) (topic : String) :
    CrewTask × CrewTask × CrewTask :=
  let plan_task := CrewTask.mk
    ("For the topic \"" ++ topic ++ "\":\n\n1. Use `multi_engine_search` to find 5 recent, relevant articles.\n2. Extract content using `extract_web_content_from_links`.\n3. Use `keyword_research` to find SEO keywords.\n4. Summarize key findings and generate a structured outline.\n\nThe outline should include:\n- Title\n- Introduction\n- 3-4 section headings with bullet points\n- Conclusion")
    "A blog outline with insights, 5-10 SEO keywords, and detailed structure."
    (planner pat mcp_tools)
    []
  let write_task := CrewTask.mk
    ("Using the outline and research for \"" ++ topic ++ "\", write a complete blog post with:\n\n- At least 5–6 paragraphs\n- Natural integration of SEO keywords\n- Engaging and informative tone\n- Clean markdown format\n\nUse examples and factual support where possible.")
    "Full markdown blog post draft, ready for editing."
    (writer pat)
    [plan_task]
  let edit_task := CrewTask.mk
    ("Edit the blog post for \"" ++ topic ++ "\":\n\n- Fix grammar and clarity issues\n- Enhance tone, transitions, and flow\n- Ensure SEO keywords are present naturally\n- Format properly in markdown:\n    - Use `#` for title\n    - `##` for section headers\n    - Paragraph spacing and bullet points\n    - Bold key phrases if needed\n\nReturn the final polished markdown content.")
    "Final markdown blog post, ready for publishing."
    (editor pat)
    [write_task]
  (plan_task, write_task, edit_task)

/-- The `Crew` built inside `main` (mcp/app.py lines 156–161);
`verbose=1` is truthy. -/
def make_crew (pat : Option String) (mcp_tools : List String) (topic : String) :
    Crew :=
  let ts := make_tasks pat mcp_tools topic
  { agents := [planner pat mcp_tools, writer pat, editor pat]
    tasks := [ts.1, ts.2.1, ts.2.2]
    process := Process.sequential
    verbose := true }

/-- The generate-button branch of `main` (mcp/app.py lines 61–179).
`run topic` stands for the whole `with MCPServerAdapter(...)` block through
`crew.kickoff()` and the derivation of `final_output`: `Except.ok out`
when it produces `final_output = out`, `Except.error e` when anything in
the `try` block raises an exception rendered by
`st.error(f"An error occurred: {e}")`. -/
def handle (topic : String) (run : String → Except String String) : UIOutcome :=
  if pyStrip topic = "" then
    UIOutcome.errorMsg "Please enter a topic for the blog post."
  else
    match run topic with
    | Except.ok final_output =>
      UIOutcome.success final_output final_output
        (pyLower (pyReplace topic ' ' '_') ++ "_blog.md") "text/markdown"
    | Except.error e => UIOutcome.errorMsg ("An error occurred: " ++ e)

end Mcp

/-! ## Helper lemmas -/

/-- The link-collecting fold of `multi_engine_search` appends exactly the
kept links to its accumulator. -/
theorem foldl_links_eq (l : List OrganicResult) (acc : List String) :
    l.foldl
      (fun links result =>
        match result.link with
        | some link => if link = "" then links else links ++ [link]
        | none => links)
      acc = acc ++ l.filterMap keptLink := by
  induction l generalizing acc with
  | nil => simp
  | cons r rest ih =>
    cases hr : r.link with
    | none => simp [List.foldl_cons, hr, ih, keptLink]
    | some link =>
      by_cases hlink : link = "" <;>
        simp [List.foldl_cons, hr, hlink, ih, keptLink]

/-- Inserting then reading the same key yields the inserted value. -/
theorem dictLookup_dictInsert_self (d : List (String × String)) (k v : String) :
    dictLookup (dictInsert d k v) k = some v := by
  induction d with
  | nil => simp [dictInsert, dictLookup]
  | cons p rest ih =>
    by_cases hp : p.1 = k <;> simp [dictInsert, dictLookup, hp, ih]

/-- Inserting one key leaves reads of other keys unchanged. -/
theorem dictLookup_dictInsert_ne (d : List (String × String)) (k v k' : String)
    (h : k' ≠ k) : dictLookup (dictInsert d k v) k' = dictLookup d k' := by
  have h' : ¬(k = k') := fun hh => h hh.symm
  induction d with
  | nil => simp [dictInsert, dictLookup, h']
  | cons p rest ih =>
    obtain ⟨pk, pv⟩ := p
    by_cases hp : pk = k
    · have hpk' : ¬(pk = k') := by rw [hp]; exact h'
      simp [dictInsert, dictLookup, hp, hpk', h']
    · by_cases hpk' : pk = k' <;>
        simp [dictInsert, dictLookup, hp, hpk', h, h', ih]

/-- Every pair of an inserted dict is the inserted pair or one of the old
ones. -/
theorem mem_dictInsert (d : List (String × String)) (k v : String)
    (p : String × String) (hp : p ∈ dictInsert d k v) : p = (k, v) ∨ p ∈ d := by
  induction d with
  | nil => simpa [dictInsert] using hp
  | cons q rest ih =>
    obtain ⟨qk, qv⟩ := q
    by_cases hq : qk = k
    · rcases (by simpa [dictInsert, hq] using hp : p = (qk, v) ∨ p ∈ rest) with h | h
      · exact Or.inl (by rw [h, hq])
      · exact Or.inr (List.mem_cons_of_mem _ h)
    · rcases (by simpa [dictInsert, hq] using hp :
          p = (qk, qv) ∨ p ∈ dictInsert rest k v) with h | h
      · exact Or.inr (by simp [h])
      · rcases ih h with h' | h'
        · exact Or.inl h'
        · exact Or.inr (List.mem_cons_of_mem _ h')

/-- One extraction step is a dict insertion of the per-url value. -/
theorem extractStep_eq (fetch : String → Except String String)
    (d : List (String × String)) (url : String) :
    extractStep fetch d url = dictInsert d url (extractValue fetch url) := by
  unfold extractStep extractValue
  cases fetch url <;> rfl

/-- Reading the extraction loop's dict: urls that were processed map to
their per-url value, others read through to the initial dict. -/
theorem extract_foldl_lookup (fetch : String → Except String String) :
    ∀ (urls : List String) (d : List (String × String)) (k : String),
    dictLookup (urls.foldl (extractStep fetch) d) k
      = if k ∈ urls then some (extractValue fetch k) else dictLookup d k := by
  intro urls
  induction urls with
  | nil => simp
  | cons u rest ih =>
    intro d k
    rw [List.foldl_cons, ih]
    by_cases hk : k ∈ rest
    · simp [hk]
    · by_cases hku : k = u
      · subst hku
        simp [hk, extractStep_eq, dictLookup_dictInsert_self]
      · simp [hk, hku, extractStep_eq, dictLookup_dictInsert_ne _ _ _ _ hku]

/-- Every key of the extraction loop's result comes from the processed
urls or from the initial dict. -/
theorem extract_foldl_keys (fetch : String → Except String String) :
    ∀ (urls : List String) (d : List (String × String)) (p : String × String),
    p ∈ urls.foldl (extractStep fetch) d → p.1 ∈ urls ∨ p ∈ d := by
  intro urls
  induction urls with
  | nil => intro d p hp; exact Or.inr (by simpa using hp)
  | cons u rest ih =>
    intro d p hp
    rw [List.foldl_cons] at hp
    rcases ih _ p hp with h | h
    · exact Or.inl (List.mem_cons_of_mem _ h)
    · rw [extractStep_eq] at h
      rcases mem_dictInsert _ _ _ _ h with h' | h'
      · exact Or.inl (by simp [h'])
      · exact Or.inr h'

/-- When every suggestion item has a `"value"` key, the comprehension
succeeds and yields one value per item. -/
theorem getValues_ok (items : List SuggestionItem)
    (h : ∀ it ∈ items, it.value ≠ none) :
    ∃ vs, getValues items = Except.ok vs ∧ vs.length = items.length := by
  induction items with
  | nil => exact ⟨[], rfl, rfl⟩
  | cons it rest ih =>
    obtain ⟨v, hv⟩ : ∃ v, it.value = some v :=
      Option.ne_none_iff_exists'.mp (h it (List.mem_cons_self it rest))
    obtain ⟨vs, hvs, hlen⟩ := ih (fun x hx => h x (List.mem_cons_of_mem _ hx))
    exact ⟨v :: vs, by simp [getValues, hv, hvs], by simp [hlen]⟩

/-- With no timeline data, every loop iteration stores `"N/A"` and the
loop succeeds. -/
theorem buildRows_na (timeline_data : List TimelineEntry)
    (h : timeline_data.getLast? = none) (kws : List String) :
    ∀ i, buildRows timeline_data i kws
      = Except.ok (kws.map fun kw => KRes.keyword kw PopValue.na) := by
  induction kws with
  | nil => intro i; rfl
  | cons kw rest ih => intro i; simp [buildRows, buildRow, h, ih]

/-- With a last timeline entry whose `values` list is long enough, every
loop iteration's index access is in bounds and the loop succeeds. -/
theorem buildRows_ok (timeline_data : List TimelineEntry)
    (last : TimelineEntry) (vs : List ValueItem)
    (hlast : timeline_data.getLast? = some last)
    (hvals : last.values = some vs) (kws : List String) :
    ∀ i, i + kws.length ≤ vs.length →
      ∃ rows, buildRows timeline_data i kws = Except.ok rows := by
  induction kws with
  | nil => exact fun i _ => ⟨[], rfl⟩
  | cons kw rest ih =>
    intro i hle
    have hi : i < vs.length := by simp at hle; omega
    have hvi : vs[i]? = some vs[i] := List.getElem?_eq_getElem hi
    obtain ⟨rows, hrows⟩ := ih (i + 1) (by simp at hle ⊢; omega)
    exact ⟨KRes.keyword kw (PopValue.fetched vs[i].value) :: rows,
      by simp [buildRows, buildRow, hlast, hvals, hvi, hrows]⟩

/-! ## Claim theorems -/

/-- C2: For every search-API response, `multi_engine_search` returns the
list of the `link` values of the first five entries of the response's
`organic_results` field, in order, omitting entries whose `link` is
missing or empty; hence the returned list has at most 5 elements, and it
is empty when the response has no `organic_results` field. -/
theorem multi_engine_search_top5_links (resp : SearchResponse) :
    multi_engine_search resp
      = ((resp.organic_results.getD []).take 5).filterMap keptLink ∧
    (multi_engine_search resp).length ≤ 5 ∧
    (resp.organic_results = none → multi_engine_search resp = []) := by
  have heq : multi_engine_search resp
      = ((resp.organic_results.getD []).take 5).filterMap keptLink := by
    unfold multi_engine_search
    simpa using foldl_links_eq ((resp.organic_results.getD []).take 5) []
  refine ⟨heq, ?_, ?_⟩
  · rw [heq]
    exact le_trans (List.length_filterMap_le _ _) (List.length_take_le _ _)
  · intro hnone
    rw [heq, hnone]
    rfl

/-- C2 witness: a response without an `organic_results` field yields the
empty link list. -/
theorem multi_engine_search_top5_links_witness :
    multi_engine_search ⟨none⟩ = [] :=
  (multi_engine_search_top5_links ⟨none⟩).2.2 rfl

/-- C6: For every input list of URLs, `extract_web_content_from_links`
returns a mapping with an entry for every URL in the list and no other
keys, never failing because of a single URL: a URL whose download or
parse succeeds maps to at most the first 1000 characters of the article
text, and a URL whose download or parse raises maps to the string
`"Error extracting content: "` followed by the exception message. -/
theorem extract_total_per_url (fetch : String → Except String String)
    (urls : List String) :
    (∀ url ∈ urls,
        dictLookup (extract_web_content_from_links fetch urls) url
          = some (extractValue fetch url)) ∧
    (∀ p ∈ extract_web_content_from_links fetch urls, p.1 ∈ urls) ∧
    (∀ url text, fetch url = Except.ok text →
        extractValue fetch url = text.take 1000) ∧
    (∀ url e, fetch url = Except.error e →
        extractValue fetch url = "Error extracting content: " ++ e) := by
  refine ⟨?_, ?_, ?_, ?_⟩
  · intro url hurl
    unfold extract_web_content_from_links
    rw [extract_foldl_lookup fetch urls [] url, if_pos hurl]
  · intro p hp
    rcases extract_foldl_keys fetch urls [] p hp with h | h
    · exact h
    · simp at h
  · intro url text hok
    unfold extractValue
    rw [hok]
  · intro url e herr
    unfold extractValue
    rw [herr]

/-- C6 witness: with one succeeding and one failing URL, the mapping holds
the truncated text for the first and the error string for the second. -/
theorem extract_total_per_url_witness :
    dictLookup
        (extract_web_content_from_links
          (fun u => if u = "bad" then Except.error "boom" else Except.ok "hello")
          ["good", "bad"]) "bad"
      = some "Error extracting content: boom" := by
  have h := (extract_total_per_url
    (fun u => if u = "bad" then Except.error "boom" else Except.ok "hello")
    ["good", "bad"]).1 "bad" (by simp)
  simpa [extractValue] using h

/-- C4 counterexample: `keyword_research` is not total over arbitrary
service responses.  With two autocomplete suggestions but a trends
response whose last timeline entry has only one element in its `values`
list, the access `timeline_data[-1]['values'][1]` is out of bounds and
the function raises an `IndexError` instead of returning a list. -/
theorem keyword_research_raises_counterexample :
    keyword_research
        ⟨some [⟨some "alpha"⟩, ⟨some "beta"⟩]⟩
        ⟨some ⟨some [⟨some [⟨some "50"⟩]⟩]⟩⟩
      = Except.error "IndexError: list index out of range" := by
  rfl

/-- C4 (amended): `keyword_research` returns a list without raising
provided the responses are well formed: every autocomplete suggestion
item (among the first five) has a `value` key, and whenever the trends
response has `interest_over_time` with non-empty `timeline_data`, the
last timeline entry has a `values` list with at least one element per
suggestion; under those hypotheses every index access
`timeline_data[-1]['values'][i]` is in bounds. -/
theorem keyword_research_total (auto : AutocompleteResponse)
    (trends : TrendsResponse)
    (h1 : ∀ it ∈ (auto.suggestions.getD []).take 5, it.value ≠ none)
    (h2 : ∀ iot, trends.interest_over_time = some iot →
          ∀ last, (iot.timeline_data.getD []).getLast? = some last →
          ∃ vs, last.values = some vs ∧
            ((auto.suggestions.getD []).take 5).length ≤ vs.length) :
    ∃ rows, keyword_research auto trends = Except.ok rows := by
  obtain ⟨sugs, hs, hlen⟩ := getValues_ok _ h1
  unfold keyword_research
  rw [hs]
  by_cases hemp : sugs.isEmpty
  · exact ⟨[KRes.error "Could not fetch keyword suggestions."], by simp [hemp]⟩
  · cases hiot : trends.interest_over_time with
    | none =>
      exact ⟨sugs.map fun kw => KRes.keyword kw PopValue.na, by simp [hemp]⟩
    | some iot =>
      cases hlast : (iot.timeline_data.getD []).getLast? with
      | none =>
        exact ⟨sugs.map fun kw => KRes.keyword kw PopValue.na,
          by simp [hemp, buildRows_na _ hlast sugs 0]⟩
      | some last =>
        obtain ⟨vs, hvs, hle⟩ := h2 iot hiot last hlast
        obtain ⟨rows, hrows⟩ :=
          buildRows_ok (iot.timeline_data.getD []) last vs hlast hvs sugs 0
            (by omega)
        exact ⟨rows, by simp [hemp, hrows]⟩

/-- C4 (amended) witness: with two suggestions and a trends response whose
last timeline entry carries two values, `keyword_research` succeeds. -/
theorem keyword_research_total_witness :
    ∃ rows, keyword_research
        ⟨some [⟨some "alpha"⟩, ⟨some "beta"⟩]⟩
        ⟨some ⟨some [⟨some [⟨some "50"⟩, ⟨some "60"⟩]⟩]⟩⟩
      = Except.ok rows :=
  keyword_research_total _ _ (by decide)
    (by
      intro iot hiot last hlast
      obtain rfl : (⟨some [⟨some [⟨some "50"⟩, ⟨some "60"⟩]⟩]⟩ :
          InterestOverTime) = iot := by
        injection hiot
      obtain rfl : (⟨some [⟨some "50"⟩, ⟨some "60"⟩]⟩ : TimelineEntry) = last := by
        simpa using hlast
      exact ⟨[⟨some "50"⟩, ⟨some "60"⟩], rfl, by decide⟩)

/-- C1 counterexample: failure handling is not confined to the top-level
UI catch.  `extract_web_content_from_links` (model.py lines 51–59), a
function below that level, catches the per-URL exception and continues
with a substituted value: with a fetch that raises `"boom"` on the only
URL, it returns normally with the error string as that URL's content
instead of propagating the exception. -/
theorem extract_catches_below_top_level :
    extract_web_content_from_links (fun _ => Except.error "boom") ["u"]
      = [("u", "Error extracting content: boom")] := by
  rfl

/-- C1 (amended): every exception that propagates to the UI generation
handler is caught at that top level and rendered as an error message, in
both variants; however, one function below that level —
`extract_web_content_from_links` — catches each per-URL extraction
exception and continues with a substituted error string as that URL's
value. -/
theorem top_level_catch_and_display
    (topic : String) (run : String → Except String String) (e : String)
    (ht : pyStrip topic ≠ "") (hr : run topic = Except.error e) :
    App.handle topic run = UIOutcome.errorMsg ("And error occurred: " ++ e) ∧
    Mcp.handle topic run = UIOutcome.errorMsg ("An error occurred: " ++ e) ∧
    (∀ (fetch : String → Except String String) (urls : List String)
        (url : String) (msg : String), url ∈ urls →
        fetch url = Except.error msg →
        dictLookup (extract_web_content_from_links fetch urls) url
          = some ("Error extracting content: " ++ msg)) := by
  refine ⟨?_, ?_, ?_⟩
  · simp [App.handle, ht, hr]
  · simp [Mcp.handle, ht, hr]
  · intro fetch urls url msg hurl hmsg
    unfold extract_web_content_from_links
    rw [extract_foldl_lookup fetch urls [] url, if_pos hurl]
    unfold extractValue
    rw [hmsg]

/-- C1 (amended) witness: a run raising `"E"` on topic `"t"` is rendered
as the top-level error message in the direct variant. -/
theorem top_level_catch_and_display_witness :
    App.handle "t" (fun _ => Except.error "E")
      = UIOutcome.errorMsg "And error occurred: E" :=
  (top_level_catch_and_display "t" (fun _ => Except.error "E") "E"
    (by decide) rfl).1

/-- C8: In both variants, when a generation run returns a result, the UI
renders it as Markdown and offers a download of exactly the same content
with MIME type `text/markdown`, under a file name derived from the topic
by replacing spaces with underscores — suffix `_blog_post.md` in the
direct variant, lowercased with suffix `_blog.md` in the MCP variant. -/
theorem success_render_and_download
    (topic : String) (run : String → Except String String) (result : String)
    (ht : pyStrip topic ≠ "") (hr : run topic = Except.ok result) :
    App.handle topic run
      = UIOutcome.success result result
          (pyReplace topic ' ' '_' ++ "_blog_post.md") "text/markdown" ∧
    Mcp.handle topic run
      = UIOutcome.success result result
          (pyLower (pyReplace topic ' ' '_') ++ "_blog.md") "text/markdown" := by
  constructor <;> simp [App.handle, Mcp.handle, ht, hr]

/-- C8 witness: topic `"My Topic"` with a run returning `"X"` renders and
downloads `"X"` under the derived file names. -/
theorem success_render_and_download_witness :
    App.handle "My Topic" (fun _ => Except.ok "X")
        = UIOutcome.success "X" "X" "My_Topic_blog_post.md" "text/markdown" ∧
    Mcp.handle "My Topic" (fun _ => Except.ok "X")
        = UIOutcome.success "X" "X" "my_topic_blog.md" "text/markdown" := by
  have h := success_render_and_download "My Topic" (fun _ => Except.ok "X") "X"
    (by decide) rfl
  exact ⟨h.1.trans (by rfl), h.2.trans (by rfl)⟩

/-- C10: In both variants, when the entered topic is empty or whitespace
only, pressing generate displays an error message, and no generation run
is started: the outcome is the same error for every possible run
function, so the crew construction and kickoff modelled by `run` are
never consulted. -/
theorem empty_topic_no_run (topic : String) (ht : pyStrip topic = "") :
    (∀ run : String → Except String String,
        App.handle topic run
          = UIOutcome.errorMsg "Please enter a topic for the blog post.") ∧
    (∀ run : String → Except String String,
        Mcp.handle topic run
          = UIOutcome.errorMsg "Please enter a topic for the blog post.") := by
  constructor <;> intro run <;> simp [App.handle, Mcp.handle, ht]

/-- C10 witness: a whitespace-only topic yields the error message in the
direct variant, for a run that would otherwise succeed. -/
theorem empty_topic_no_run_witness :
    App.handle "   " (fun _ => Except.ok "X")
      = UIOutcome.errorMsg "Please enter a topic for the blog post." :=
  (empty_topic_no_run "   " (by decide)).1 (fun _ => Except.ok "X")

/-- C5: Both variants configure the run sequentially with prior output as
context: the direct crew uses `Process.sequential` with tasks
`[research_task, writing_task]` and `writing_task.context = [research_task]`
(while `research_task` has no context); the MCP crew uses
`Process.sequential` with tasks `[plan_task, write_task, edit_task]`,
`write_task.context = [plan_task]` and `edit_task.context = [write_task]`
(while `plan_task` has no context). -/
theorem sequential_process_with_context (capi pat : Option String)
    (mcp_tools : List String) (topic : String) :
    (App.run_blog_generation_crew capi topic).process = Process.sequential ∧
    (App.run_blog_generation_crew capi topic).tasks
      = [(App.create_tasks capi topic).1, (App.create_tasks capi topic).2] ∧
    ((App.create_tasks capi topic).1).context = [] ∧
    ((App.create_tasks capi topic).2).context
      = [(App.create_tasks capi topic).1] ∧
    (Mcp.make_crew pat mcp_tools topic).process = Process.sequential ∧
    (Mcp.make_crew pat mcp_tools topic).tasks
      = [(Mcp.make_tasks pat mcp_tools topic).1,
         (Mcp.make_tasks pat mcp_tools topic).2.1,
         (Mcp.make_tasks pat mcp_tools topic).2.2] ∧
    ((Mcp.make_tasks pat mcp_tools topic).1).context = [] ∧
    ((Mcp.make_tasks pat mcp_tools topic).2.1).context
      = [(Mcp.make_tasks pat mcp_tools topic).1] ∧
    ((Mcp.make_tasks pat mcp_tools topic).2.2).context
      = [(Mcp.make_tasks pat mcp_tools topic).2.1] :=
  ⟨rfl, rfl, rfl, rfl, rfl, rfl, rfl, rfl, rfl⟩

/-- C9: Agent definitions are static configuration independent of the
topic: for any two topics (same environment and adapter tools) the crews
carry equal agent lists, and the tasks agree on everything except their
description strings (equal `expected_output`, equal `agent`, and contexts
equal up to descriptions); the download file names are derived from the
topic alone. -/
theorem agents_independent_of_topic (capi pat : Option String)
    (mcp_tools : List String) (t1 t2 : String) :
    (App.run_blog_generation_crew capi t1).agents
      = (App.run_blog_generation_crew capi t2).agents ∧
    (Mcp.make_crew pat mcp_tools t1).agents
      = (Mcp.make_crew pat mcp_tools t2).agents ∧
    (App.run_blog_generation_crew capi t1).tasks.map CrewTask.expected_output
      = (App.run_blog_generation_crew capi t2).tasks.map CrewTask.expected_output ∧
    (App.run_blog_generation_crew capi t1).tasks.map CrewTask.agent
      = (App.run_blog_generation_crew capi t2).tasks.map CrewTask.agent ∧
    (App.run_blog_generation_crew capi t1).tasks.map
        (fun t => t.context.map CrewTask.agent)
      = (App.run_blog_generation_crew capi t2).tasks.map
        (fun t => t.context.map CrewTask.agent) ∧
    (Mcp.make_crew pat mcp_tools t1).tasks.map CrewTask.expected_output
      = (Mcp.make_crew pat mcp_tools t2).tasks.map CrewTask.expected_output ∧
    (Mcp.make_crew pat mcp_tools t1).tasks.map CrewTask.agent
      = (Mcp.make_crew pat mcp_tools t2).tasks.map CrewTask.agent ∧
    (Mcp.make_crew pat mcp_tools t1).tasks.map
        (fun t => t.context.map CrewTask.agent)
      = (Mcp.make_crew pat mcp_tools t2).tasks.map
        (fun t => t.context.map CrewTask.agent) :=
  ⟨rfl, rfl, rfl, rfl, rfl, rfl, rfl, rfl⟩

/-- C3: The three tool functions are stateless request/response functions:
each call returns the module state unchanged, and for any two runs with
equal arguments and equal responses from the external services — even
from different module states — the returned values are equal. -/
theorem tools_stateless_deterministic (st st' : ServerState)
    (q eng loc dev topic : String) (resp : SearchResponse)
    (fetch : String → Except String String) (urls : List String)
    (auto : AutocompleteResponse) (trends : TrendsResponse) :
    ((multi_engine_search_call st q eng loc dev resp).1 = st ∧
     (extract_call st fetch urls).1 = st ∧
     (keyword_research_call st topic auto trends).1 = st) ∧
    ((multi_engine_search_call st q eng loc dev resp).2
       = (multi_engine_search_call st' q eng loc dev resp).2 ∧
     (extract_call st fetch urls).2 = (extract_call st' fetch urls).2 ∧
     (keyword_research_call st topic auto trends).2
       = (keyword_research_call st' topic auto trends).2) :=
  ⟨⟨rfl, rfl, rfl⟩, ⟨rfl, rfl, rfl⟩⟩

/-- C7: The server registers exactly the three tools
`multi_engine_search`, `extract_web_content_from_links` and
`keyword_research`; they are pairwise distinct, none of them calls
another registered tool (each body only calls the external search API or
the extraction library), and `MyModelClass.get_server` returns this
server. -/
theorem three_independent_tools :
    server.tools = ["multi_engine_search", "extract_web_content_from_links",
                    "keyword_research"] ∧
    server.tools.length = 3 ∧
    server.tools.Nodup ∧
    (server.tools.all fun t => (tool_callees t).all fun c => !c.isTool) = true ∧
    MyModelClass_get_server = server :=
  ⟨rfl, rfl, by decide, by decide, rfl⟩
